import Mathlib

/-!
Shallow embedding of the trajectory-conversion routines of
`Muscollo/tropter/TropterProblem.cpp` and of the model factories declared in
`Moco/Components/ModelFactory.h` (OpenSim Muscollo/Moco).

Scalar values (times, matrix entries, parameters) are doubles in the source;
no arithmetic is ever performed on them — they are only copied between
layouts — so they are modelled by `Int`.
-/

namespace Spec2Proof

/-- A dense matrix as both libraries expose it: a row count, a column count,
and row-major data.  `SimTK::Matrix` and `Eigen::MatrixXd` both carry their
dimensions even when one of them is zero, so the dimensions are stored
explicitly; `data` lists the rows, each row listing the entries of the
columns. -/
structure Mat where
  nrows : Nat
  ncols : Nat
  data : List (List Int)
deriving DecidableEq, Repr

/-- Entry read `A(r, c)`; out-of-range reads (never performed by the source
on well-formed inputs) default to 0. -/
def Mat.get (A : Mat) (r c : Nat) : Int :=
  (A.data.getD r []).getD c 0

/-- The well-formedness every materialized matrix of the source enjoys:
the stored data has exactly the advertised dimensions. -/
def Mat.wf (A : Mat) : Prop :=
  A.data.length = A.nrows ∧ ∀ row ∈ A.data, row.length = A.ncols

/-- A matrix with every entry assigned, as the nested
`for (r ...) for (c ...) M(r, c) = f r c` loops of the source produce. -/
def mkMat (nr nc : Nat) (f : Nat → Nat → Int) : Mat :=
  ⟨nr, nc, (List.range nr).map (fun r => (List.range nc).map (fun c => f r c))⟩

/-- A default-constructed `SimTK::Matrix` or `Eigen::MatrixXd`: 0 by 0,
no data. -/
def Mat.empty : Mat := ⟨0, 0, []⟩

/-- `tropter::Iterate` (the external solver's trajectory record):
`time` is a row vector of time samples, the matrices are variable-major
(one row per channel, one column per time sample), `adjuncts` holds the
multiplier and derivative channels in one combined block. -/
structure TropterIterate where
  time : List Int
  state_names : List String
  control_names : List String
  adjunct_names : List String
  parameter_names : List String
  states : Mat
  controls : Mat
  adjuncts : Mat
  parameters : List Int
deriving DecidableEq, Repr

/-- A default-constructed `tropter::Iterate`: empty time row vector, empty
name lists, 0-by-0 matrices, empty parameter vector. -/
def TropterIterate.defaultIterate : TropterIterate :=
  ⟨[], [], [], [], [], Mat.empty, Mat.empty, Mat.empty, []⟩

/-- `OpenSim::MucoIterate` (the host framework's trajectory record):
`time` is a column vector of time samples, the matrices are time-major
(one row per time sample, one column per channel), multipliers and
derivatives are separate matrices, `parameters` is a row vector. -/
structure MucoIterate where
  time : List Int
  state_names : List String
  control_names : List String
  multiplier_names : List String
  derivative_names : List String
  parameter_names : List String
  states : Mat
  controls : Mat
  multipliers : Mat
  derivatives : Mat
  parameters : List Int
deriving DecidableEq, Repr

/-- Modelled from the spec: `MucoIterate::empty()` is declared outside this
excerpt (the conversion code only branches on it).  Following the spec's
trajectory-record data model — ordered time samples and named channels —
an iterate is empty when it has no time samples and no named channels or
parameters. -/
def MucoIterate.isEmpty (m : MucoIterate) : Bool :=
  m.time.isEmpty && m.state_names.isEmpty && m.control_names.isEmpty &&
    m.multiplier_names.isEmpty && m.derivative_names.isEmpty &&
    m.parameter_names.isEmpty

/-- The `int numDerivatives = (int)tropSol.adjunct_names.size() - numMultipliers`
computation of `convertIterateTropterToMuco`, on C++ `int`s (so it can be
negative; the source then `assert`s it is non-negative). -/
def numDerivativesInt (mpSum : Nat) (trop : TropterIterate) : Int :=
  (trop.adjunct_names.length : Int) - (mpSum : Int)

/-- `TropterProblemBase::convertIterateTropterToMuco` of
`TropterProblem.cpp` (lines 24-103).  `mpSum` is the solver's `m_mpSum`
(the problem's multiplier count).  The first `mpSum` adjunct names/rows
become the multipliers, the rest become the derivatives; every matrix is
transposed from variable-major to time-major; a channel group with zero
channels leaves the corresponding `SimTK::Matrix` default-constructed
(0 by 0), per the source's comment about degenerate empty matrices. -/
def convertIterateTropterToMuco (mpSum : Nat) (trop : TropterIterate) :
    MucoIterate :=
  let time := trop.time
  let state_names := trop.state_names
  let control_names := trop.control_names
  let numMultipliers := mpSum
  let multiplier_names := trop.adjunct_names.take numMultipliers
  let numDerivatives := trop.adjunct_names.length - numMultipliers
  let derivative_names := trop.adjunct_names.drop numMultipliers
  let parameter_names := trop.parameter_names
  let numTimes := time.length
  let numStates := state_names.length
  let states :=
    if numStates ≠ 0 then
      mkMat numTimes numStates (fun itime istate => trop.states.get istate itime)
    else Mat.empty
  let numControls := control_names.length
  let controls :=
    if numControls ≠ 0 then
      mkMat numTimes numControls
        (fun itime icontrol => trop.controls.get icontrol itime)
    else Mat.empty
  let multipliers :=
    if numMultipliers ≠ 0 then
      mkMat numTimes numMultipliers
        (fun itime imultiplier => trop.adjuncts.get imultiplier itime)
    else Mat.empty
  let derivatives :=
    if numDerivatives ≠ 0 then
      mkMat numTimes numDerivatives
        (fun itime iderivative =>
          trop.adjuncts.get (iderivative + numMultipliers) itime)
    else Mat.empty
  let numParameters := parameter_names.length
  let parameters := trop.parameters.take numParameters
  ⟨time, state_names, control_names, multiplier_names, derivative_names,
    parameter_names, states, controls, multipliers, derivatives, parameters⟩

/-- `TropterProblemBase::convertToTropterIterate` of `TropterProblem.cpp`
(lines 122-186).  An empty input returns a default-constructed
`tropter::Iterate`.  Otherwise every matrix is transposed from time-major
to variable-major (`SimTK::Matrix` and `Eigen::MatrixXd` both store
column-major, so the raw `Eigen::Map` of the SimTK data is the identity and
`.transpose()` is entrywise transposition), the adjunct block is the
multipliers stacked on top of the derivatives, and a channel group with
zero channels is resized to 0 rows by `numTimes` columns. -/
def convertToTropterIterate (mucoIter : MucoIterate) : TropterIterate :=
  if mucoIter.isEmpty then TropterIterate.defaultIterate
  else
    let time := mucoIter.time
    let state_names := mucoIter.state_names
    let control_names := mucoIter.control_names
    let adjunct_names := mucoIter.multiplier_names ++ mucoIter.derivative_names
    let parameter_names := mucoIter.parameter_names
    let numTimes := time.length
    let numStates := state_names.length
    let numControls := control_names.length
    let numMultipliers := mucoIter.multiplier_names.length
    let numDerivatives := mucoIter.derivative_names.length
    let numParameters := parameter_names.length
    let states :=
      if numStates ≠ 0 then
        mkMat numStates numTimes
          (fun istate itime => mucoIter.states.get itime istate)
      else ⟨0, numTimes, []⟩
    let controls :=
      if numControls ≠ 0 then
        mkMat numControls numTimes
          (fun icontrol itime => mucoIter.controls.get itime icontrol)
      else ⟨0, numTimes, []⟩
    let adjuncts :=
      mkMat (numMultipliers + numDerivatives) numTimes
        (fun i itime =>
          if i < numMultipliers then mucoIter.multipliers.get itime i
          else mucoIter.derivatives.get itime (i - numMultipliers))
    let parameters :=
      if numParameters ≠ 0 then mucoIter.parameters.take numParameters
      else []
    ⟨time, state_names, control_names, adjunct_names, parameter_names,
      states, controls, adjuncts, parameters⟩

/-- A matrix with at least one entry: both dimensions are nonzero.  (The
source's comment calls a matrix with zero entries but a nonzero dimension,
such as `SimTK::Matrix(5, 0)`, a degenerate "matrix with five empty rows".) -/
def Mat.nonEmpty (A : Mat) : Prop := A.nrows ≠ 0 ∧ A.ncols ≠ 0

/-- Shape invariant of a matrix of the Muco (time-major) layout: the data
is well-formed and, when the matrix is non-empty, its row count is the
time-sample count `nT`. -/
def mucoShapeOK (nT : Nat) (A : Mat) : Prop :=
  A.wf ∧ (A.nonEmpty → A.nrows = nT)

/-- Shape invariant of a matrix of the tropter (variable-major) layout:
the data is well-formed and, when the matrix is non-empty, its column
count is the time-sample count `nT`. -/
def tropShapeOK (nT : Nat) (A : Mat) : Prop :=
  A.wf ∧ (A.nonEmpty → A.ncols = nT)

/-- Modelled from the spec: the host framework's `Model` type and the body
of `ModelFactory::createNLinkPendulum` are outside this excerpt (the header
only declares the factories), so a model is represented by which factory
built it and the factory's integer argument. -/
inductive Model where
  | nLinkPendulum (numLinks : Int) : Model
  | planarPointMass : Model
  | brachistochrone : Model
deriving DecidableEq, Repr

/-- `ModelFactory::createNLinkPendulum` (declared in `ModelFactory.h`,
line 39); its body is outside the excerpt, see `Model`. -/
def createNLinkPendulum (numLinks : Int) : Model :=
  Model.nLinkPendulum numLinks

/-- `ModelFactory::createDoublePendulum` (`ModelFactory.h`, line 42):
`return createNLinkPendulum(2);`. -/
def createDoublePendulum : Model := createNLinkPendulum 2

/-- The member functions the `ModelFactory` class of `ModelFactory.h`
actually declares.  Note `createPendulum` is absent: on line 40 the text
`static Model createPendulum() { return createNLinkPendulum(1); }` sits on
the same line as, and therefore inside, the `///` doc comment, so the class
declares no such member. -/
def modelFactoryDeclaredMembers : List String :=
  ["createNLinkPendulum", "createDoublePendulum", "createPlanarPointMass",
   "createBrachistochrone", "replaceMusclesWithPathActuators",
   "removeMuscles", "replaceJointWithWeldJoint", "createReserveActuators"]

/-! ### Concrete sample inputs (used by witnesses and counterexamples) -/

/-- A small tropter iterate: two time samples, one state, one control, one
multiplier and one derivative in the adjunct block, one parameter. -/
def tropEx : TropterIterate :=
  { time := [10, 20]
    state_names := ["s0"]
    control_names := ["c0"]
    adjunct_names := ["L0", "d0"]
    parameter_names := ["p0"]
    states := ⟨1, 2, [[1, 2]]⟩
    controls := ⟨1, 2, [[3, 4]]⟩
    adjuncts := ⟨2, 2, [[5, 6], [7, 8]]⟩
    parameters := [9] }

/-- A small Muco iterate, the time-major counterpart of `tropEx`. -/
def mucoEx : MucoIterate :=
  { time := [10, 20]
    state_names := ["s0"]
    control_names := ["c0"]
    multiplier_names := ["L0"]
    derivative_names := ["d0"]
    parameter_names := ["p0"]
    states := ⟨2, 1, [[1], [2]]⟩
    controls := ⟨2, 1, [[3], [4]]⟩
    multipliers := ⟨2, 1, [[5], [6]]⟩
    derivatives := ⟨2, 1, [[7], [8]]⟩
    parameters := [9] }

/-- A tropter iterate with two time samples and no states: its states
matrix is 0 by 2 (zero channels, two time columns). -/
def tropNoStates : TropterIterate :=
  { time := [10, 20]
    state_names := []
    control_names := ["c0"]
    adjunct_names := []
    parameter_names := []
    states := ⟨0, 2, []⟩
    controls := ⟨1, 2, [[3, 4]]⟩
    adjuncts := ⟨0, 2, []⟩
    parameters := [] }

/-- An empty Muco iterate (no time samples, no names) whose matrix and
parameter fields nevertheless hold data, to exhibit that the conversion
does not read them. -/
def mucoEmptyEx : MucoIterate :=
  { time := []
    state_names := []
    control_names := []
    multiplier_names := []
    derivative_names := []
    parameter_names := []
    states := ⟨2, 2, [[1, 2], [3, 4]]⟩
    controls := ⟨1, 1, [[5]]⟩
    multipliers := ⟨1, 1, [[6]]⟩
    derivatives := ⟨1, 1, [[7]]⟩
    parameters := [42] }

/-- A non-empty Muco iterate with one time sample and an empty state
channel group whose states matrix has one row and zero columns — the
shape the claim hypothesis "matrices have rows equal to the time-sample
count" prescribes. -/
def mucoRowEx : MucoIterate :=
  { time := [10]
    state_names := []
    control_names := ["c0"]
    multiplier_names := []
    derivative_names := []
    parameter_names := []
    states := ⟨1, 0, [[]]⟩
    controls := ⟨1, 1, [[3]]⟩
    multipliers := ⟨1, 0, [[]]⟩
    derivatives := ⟨1, 0, [[]]⟩
    parameters := [] }

/-! ### Basic lemmas about the matrix model -/

theorem mkMat_nrows (nr nc : Nat) (f : Nat → Nat → Int) :
    (mkMat nr nc f).nrows = nr := rfl

theorem mkMat_ncols (nr nc : Nat) (f : Nat → Nat → Int) :
    (mkMat nr nc f).ncols = nc := rfl

theorem mkMat_get (nr nc : Nat) (f : Nat → Nat → Int) (r c : Nat)
    (hr : r < nr) (hc : c < nc) : (mkMat nr nc f).get r c = f r c := by
  simp [mkMat, Mat.get, List.getD_eq_getElem?_getD, List.getElem?_map,
    List.getElem?_range, hr, hc]

theorem mkMat_wf (nr nc : Nat) (f : Nat → Nat → Int) : (mkMat nr nc f).wf := by
  constructor
  · simp [mkMat]
  · intro row hrow
    simp only [mkMat, List.mem_map, List.mem_range] at hrow
    obtain ⟨r, _, rfl⟩ := hrow
    simp [mkMat]

theorem isEmpty_false_cases (m : MucoIterate) (h : m.isEmpty = true) :
    m.time = [] ∧ m.state_names = [] ∧ m.control_names = [] ∧
      m.multiplier_names = [] ∧ m.derivative_names = [] ∧
      m.parameter_names = [] := by
  simp only [MucoIterate.isEmpty, Bool.and_eq_true, List.isEmpty_iff] at h
  exact ⟨h.1.1.1.1.1, h.1.1.1.1.2, h.1.1.1.2, h.1.1.2, h.1.2, h.2⟩

theorem convertToTropterIterate_of_nonempty (m : MucoIterate)
    (h : m.isEmpty = false) :
    convertToTropterIterate m =
      ⟨m.time, m.state_names, m.control_names,
        m.multiplier_names ++ m.derivative_names, m.parameter_names,
        (if m.state_names.length ≠ 0 then
          mkMat m.state_names.length m.time.length
            (fun istate itime => m.states.get itime istate)
         else ⟨0, m.time.length, []⟩),
        (if m.control_names.length ≠ 0 then
          mkMat m.control_names.length m.time.length
            (fun icontrol itime => m.controls.get itime icontrol)
         else ⟨0, m.time.length, []⟩),
        mkMat (m.multiplier_names.length + m.derivative_names.length)
          m.time.length
          (fun i itime =>
            if i < m.multiplier_names.length then m.multipliers.get itime i
            else m.derivatives.get itime (i - m.multiplier_names.length)),
        (if m.parameter_names.length ≠ 0 then
          m.parameters.take m.parameter_names.length
         else [])⟩ := by
  simp [convertToTropterIterate, h]

theorem mucoShapeOK_mkMat (nT k : Nat) (f : Nat → Nat → Int) :
    mucoShapeOK nT (mkMat nT k f) :=
  ⟨mkMat_wf _ _ _, fun _ => rfl⟩

theorem mucoShapeOK_empty (nT : Nat) : mucoShapeOK nT Mat.empty :=
  ⟨⟨rfl, by simp [Mat.empty]⟩, fun hne => absurd rfl hne.1⟩

theorem tropShapeOK_mkMat (k nT : Nat) (f : Nat → Nat → Int) :
    tropShapeOK nT (mkMat k nT f) :=
  ⟨mkMat_wf _ _ _, fun _ => rfl⟩

theorem tropShapeOK_zero_rows (nT : Nat) :
    tropShapeOK nT ⟨0, nT, []⟩ :=
  ⟨⟨rfl, by simp⟩, fun hne => absurd rfl hne.1⟩

/-! ### Claim theorems -/

/-- Claim C1: in `convertToTropterIterate` the combined adjunct block is
ordered multipliers-first, derivatives-second: the output `adjunct_names`
is the input's multiplier names followed by its derivative names, and for
every time index the first `numMultipliers` rows of the adjuncts matrix
hold the multiplier columns and the following `numDerivatives` rows hold
the derivative columns. -/
theorem adjunct_block_multipliers_first (m : MucoIterate)
    (h : m.isEmpty = false) :
    (convertToTropterIterate m).adjunct_names
        = m.multiplier_names ++ m.derivative_names ∧
    (∀ itime, itime < m.time.length →
      (∀ i, i < m.multiplier_names.length →
        (convertToTropterIterate m).adjuncts.get i itime
          = m.multipliers.get itime i) ∧
      (∀ j, j < m.derivative_names.length →
        (convertToTropterIterate m).adjuncts.get
            (m.multiplier_names.length + j) itime
          = m.derivatives.get itime j)) := by
  rw [convertToTropterIterate_of_nonempty m h]
  refine ⟨rfl, ?_⟩
  intro itime ht
  constructor
  · intro i hi
    show (mkMat _ _ _).get i itime = _
    rw [mkMat_get _ _ _ _ _ (by omega) ht, if_pos hi]
  · intro j hj
    show (mkMat _ _ _).get (m.multiplier_names.length + j) itime = _
    rw [mkMat_get _ _ _ _ _ (by omega) ht, if_neg (by omega),
      Nat.add_sub_cancel_left]

/-- Witness for C1 on the concrete iterate `mucoEx`. -/
theorem adjunct_block_multipliers_first_w :
    mucoEx.isEmpty = false ∧
    (convertToTropterIterate mucoEx).adjunct_names
        = mucoEx.multiplier_names ++ mucoEx.derivative_names ∧
    (convertToTropterIterate mucoEx).adjuncts.get 0 1
        = mucoEx.multipliers.get 1 0 ∧
    (convertToTropterIterate mucoEx).adjuncts.get
        (mucoEx.multiplier_names.length + 0) 1
        = mucoEx.derivatives.get 1 0 :=
  ⟨by decide,
   (adjunct_block_multipliers_first mucoEx (by decide)).1,
   ((adjunct_block_multipliers_first mucoEx (by decide)).2 1
      (by decide)).1 0 (by decide),
   ((adjunct_block_multipliers_first mucoEx (by decide)).2 1
      (by decide)).2 0 (by decide)⟩

/-- Claim C4: `convertIterateTropterToMuco` splits the adjunct channels by
the problem's multiplier count `m_mpSum`: the first `m_mpSum` adjunct
names and matrix rows become the output multiplier names and multiplier
matrix, and the remaining adjunct names and rows become the derivative
names and derivative matrix. -/
theorem split_adjuncts_by_mpsum (mpSum : Nat) (trop : TropterIterate)
    (h : mpSum ≤ trop.adjunct_names.length) :
    (convertIterateTropterToMuco mpSum trop).multiplier_names
        = trop.adjunct_names.take mpSum ∧
    (convertIterateTropterToMuco mpSum trop).multiplier_names.length
        = mpSum ∧
    (convertIterateTropterToMuco mpSum trop).derivative_names
        = trop.adjunct_names.drop mpSum ∧
    (convertIterateTropterToMuco mpSum trop).derivative_names.length
        = trop.adjunct_names.length - mpSum ∧
    (∀ itime, itime < trop.time.length →
      (∀ i, i < mpSum →
        (convertIterateTropterToMuco mpSum trop).multipliers.get itime i
          = trop.adjuncts.get i itime) ∧
      (∀ j, j < trop.adjunct_names.length - mpSum →
        (convertIterateTropterToMuco mpSum trop).derivatives.get itime j
          = trop.adjuncts.get (j + mpSum) itime)) := by
  refine ⟨by simp [convertIterateTropterToMuco],
    by simp [convertIterateTropterToMuco, List.length_take,
      Nat.min_eq_left h],
    by simp [convertIterateTropterToMuco],
    by simp [convertIterateTropterToMuco], ?_⟩
  intro itime ht
  constructor
  · intro i hi
    have hm0 : mpSum ≠ 0 := by omega
    simp only [convertIterateTropterToMuco, if_pos hm0]
    rw [mkMat_get _ _ _ _ _ ht hi]
  · intro j hj
    have hd0 : trop.adjunct_names.length - mpSum ≠ 0 := by omega
    simp only [convertIterateTropterToMuco, if_pos hd0]
    rw [mkMat_get _ _ _ _ _ ht hj]

/-- Witness for C4 on the concrete iterate `tropEx` with `m_mpSum = 1`. -/
theorem split_adjuncts_by_mpsum_w :
    1 ≤ tropEx.adjunct_names.length ∧
    (convertIterateTropterToMuco 1 tropEx).multiplier_names
        = tropEx.adjunct_names.take 1 ∧
    (convertIterateTropterToMuco 1 tropEx).derivative_names
        = tropEx.adjunct_names.drop 1 ∧
    (convertIterateTropterToMuco 1 tropEx).multipliers.get 1 0
        = tropEx.adjuncts.get 0 1 ∧
    (convertIterateTropterToMuco 1 tropEx).derivatives.get 1 0
        = tropEx.adjuncts.get (0 + 1) 1 :=
  ⟨by decide,
   (split_adjuncts_by_mpsum 1 tropEx (by decide)).1,
   (split_adjuncts_by_mpsum 1 tropEx (by decide)).2.2.1,
   ((split_adjuncts_by_mpsum 1 tropEx (by decide)).2.2.2.2 1
      (by decide)).1 0 (by decide),
   ((split_adjuncts_by_mpsum 1 tropEx (by decide)).2.2.2.2 1
      (by decide)).2 0 (by decide)⟩

/-- Claim C5: each conversion copies every named channel column between
the two layouts by transposition: the Muco matrices produced by
`convertIterateTropterToMuco` read `muco(itime, i) = trop(i, itime)` for
every in-range time and channel index (states, controls, multipliers, and
derivatives, the latter two from the adjunct block), and the tropter
matrices produced by `convertToTropterIterate` are the transposes of the
corresponding Muco matrices. -/
theorem channel_columns_transposed (mpSum : Nat) (trop : TropterIterate)
    (m : MucoIterate) (h : m.isEmpty = false) :
    (∀ itime, itime < trop.time.length →
      (∀ i, i < trop.state_names.length →
        (convertIterateTropterToMuco mpSum trop).states.get itime i
          = trop.states.get i itime) ∧
      (∀ i, i < trop.control_names.length →
        (convertIterateTropterToMuco mpSum trop).controls.get itime i
          = trop.controls.get i itime) ∧
      (∀ i, i < mpSum →
        (convertIterateTropterToMuco mpSum trop).multipliers.get itime i
          = trop.adjuncts.get i itime) ∧
      (∀ j, j < trop.adjunct_names.length - mpSum →
        (convertIterateTropterToMuco mpSum trop).derivatives.get itime j
          = trop.adjuncts.get (j + mpSum) itime)) ∧
    (∀ itime, itime < m.time.length →
      (∀ i, i < m.state_names.length →
        (convertToTropterIterate m).states.get i itime
          = m.states.get itime i) ∧
      (∀ i, i < m.control_names.length →
        (convertToTropterIterate m).controls.get i itime
          = m.controls.get itime i) ∧
      (∀ i, i < m.multiplier_names.length →
        (convertToTropterIterate m).adjuncts.get i itime
          = m.multipliers.get itime i) ∧
      (∀ j, j < m.derivative_names.length →
        (convertToTropterIterate m).adjuncts.get
            (m.multiplier_names.length + j) itime
          = m.derivatives.get itime j)) := by
  constructor
  · intro itime ht
    refine ⟨?_, ?_, ?_, ?_⟩
    · intro i hi
      simp only [convertIterateTropterToMuco, if_pos (by omega :
        trop.state_names.length ≠ 0)]
      rw [mkMat_get _ _ _ _ _ ht hi]
    · intro i hi
      simp only [convertIterateTropterToMuco, if_pos (by omega :
        trop.control_names.length ≠ 0)]
      rw [mkMat_get _ _ _ _ _ ht hi]
    · intro i hi
      simp only [convertIterateTropterToMuco, if_pos (by omega :
        mpSum ≠ 0)]
      rw [mkMat_get _ _ _ _ _ ht hi]
    · intro j hj
      simp only [convertIterateTropterToMuco, if_pos (by omega :
        trop.adjunct_names.length - mpSum ≠ 0)]
      rw [mkMat_get _ _ _ _ _ ht hj]
  · intro itime ht
    rw [convertToTropterIterate_of_nonempty m h]
    refine ⟨?_, ?_, ?_, ?_⟩
    · intro i hi
      show ((if _ then _ else _ : Mat)).get i itime = _
      rw [if_pos (by omega : m.state_names.length ≠ 0),
        mkMat_get _ _ _ _ _ hi ht]
    · intro i hi
      show ((if _ then _ else _ : Mat)).get i itime = _
      rw [if_pos (by omega : m.control_names.length ≠ 0),
        mkMat_get _ _ _ _ _ hi ht]
    · intro i hi
      show (mkMat _ _ _).get i itime = _
      rw [mkMat_get _ _ _ _ _ (by omega) ht, if_pos hi]
    · intro j hj
      show (mkMat _ _ _).get (m.multiplier_names.length + j) itime = _
      rw [mkMat_get _ _ _ _ _ (by omega) ht, if_neg (by omega),
        Nat.add_sub_cancel_left]

/-- Witness for C5 on the concrete pair `tropEx` (with `m_mpSum = 1`) and
`mucoEx`. -/
theorem channel_columns_transposed_w :
    mucoEx.isEmpty = false ∧
    (convertIterateTropterToMuco 1 tropEx).states.get 1 0
        = tropEx.states.get 0 1 ∧
    (convertIterateTropterToMuco 1 tropEx).controls.get 0 0
        = tropEx.controls.get 0 0 ∧
    (convertToTropterIterate mucoEx).states.get 0 1
        = mucoEx.states.get 1 0 ∧
    (convertToTropterIterate mucoEx).controls.get 0 0
        = mucoEx.controls.get 0 0 :=
  ⟨by decide,
   ((channel_columns_transposed 1 tropEx mucoEx (by decide)).1 1
      (by decide)).1 0 (by decide),
   ((channel_columns_transposed 1 tropEx mucoEx (by decide)).1 0
      (by decide)).2.1 0 (by decide),
   ((channel_columns_transposed 1 tropEx mucoEx (by decide)).2 1
      (by decide)).1 0 (by decide),
   ((channel_columns_transposed 1 tropEx mucoEx (by decide)).2 0
      (by decide)).2.1 0 (by decide)⟩

/-- Claim C2, counterexample: on `tropNoStates` (two time samples, zero
state channels, `m_mpSum = 0`) the claim asserts the output states matrix
is zero-sized along the empty (state) dimension only, which forces its
time dimension to keep the two time rows; the code instead leaves the
matrix default-constructed at 0 by 0, so its row count is 0, not 2. -/
theorem empty_group_zero_both_dims :
    tropNoStates.state_names.length = 0 ∧
    tropNoStates.time.length = 2 ∧
    ¬ ((convertIterateTropterToMuco 0 tropNoStates).states.nrows
        = tropNoStates.time.length) := by decide

/-- Claim C2 as amended: an empty channel group in the tropter-to-Muco
direction yields the fully empty 0-by-0 matrix (zero along both
dimensions, as the source comment about degenerate `SimTK::Matrix`
empties prescribes), while in the Muco-to-tropter direction it yields a
matrix with zero rows along the empty channel dimension and `numTimes`
columns along the time dimension (`numMultipliers + numDerivatives = 0`
giving a 0-by-`numTimes` adjunct block); an empty parameter group yields
an empty parameter vector. -/
theorem empty_group_shapes (mpSum : Nat) (trop : TropterIterate)
    (m : MucoIterate) (h : m.isEmpty = false) :
    (trop.state_names.length = 0 →
      (convertIterateTropterToMuco mpSum trop).states = Mat.empty) ∧
    (trop.control_names.length = 0 →
      (convertIterateTropterToMuco mpSum trop).controls = Mat.empty) ∧
    (mpSum = 0 →
      (convertIterateTropterToMuco mpSum trop).multipliers = Mat.empty) ∧
    (trop.adjunct_names.length - mpSum = 0 →
      (convertIterateTropterToMuco mpSum trop).derivatives = Mat.empty) ∧
    (trop.parameter_names.length = 0 →
      (convertIterateTropterToMuco mpSum trop).parameters = []) ∧
    (m.state_names.length = 0 →
      (convertToTropterIterate m).states = ⟨0, m.time.length, []⟩) ∧
    (m.control_names.length = 0 →
      (convertToTropterIterate m).controls = ⟨0, m.time.length, []⟩) ∧
    (m.multiplier_names.length = 0 → m.derivative_names.length = 0 →
      (convertToTropterIterate m).adjuncts = ⟨0, m.time.length, []⟩) ∧
    (m.parameter_names.length = 0 →
      (convertToTropterIterate m).parameters = []) := by
  refine ⟨fun h0 => ?_, fun h0 => ?_, fun h0 => ?_, fun h0 => ?_,
    fun h0 => ?_, fun h0 => ?_, fun h0 => ?_, fun h0 h1 => ?_, fun h0 => ?_⟩
  · simp [convertIterateTropterToMuco, h0]
  · simp [convertIterateTropterToMuco, h0]
  · simp [convertIterateTropterToMuco, h0]
  · simp [convertIterateTropterToMuco, h0]
  · simp [convertIterateTropterToMuco, h0, List.take_zero]
  · rw [convertToTropterIterate_of_nonempty m h]
    show (if _ then _ else _) = _
    rw [if_neg (by omega)]
  · rw [convertToTropterIterate_of_nonempty m h]
    show (if _ then _ else _) = _
    rw [if_neg (by omega)]
  · rw [convertToTropterIterate_of_nonempty m h]
    show mkMat _ _ _ = _
    rw [h0, h1]
    rfl
  · rw [convertToTropterIterate_of_nonempty m h]
    show (if _ then _ else _) = _
    rw [if_neg (by omega)]

/-- Witness for the amended C2 on the concrete inputs `tropNoStates`
(empty states and adjuncts, `m_mpSum = 0`) and `mucoRowEx` (non-empty,
with empty state, multiplier, derivative, and parameter groups). -/
theorem empty_group_shapes_w :
    mucoRowEx.isEmpty = false ∧
    (convertIterateTropterToMuco 0 tropNoStates).states = Mat.empty ∧
    (convertIterateTropterToMuco 0 tropNoStates).multipliers = Mat.empty ∧
    (convertToTropterIterate mucoRowEx).states
        = ⟨0, mucoRowEx.time.length, []⟩ ∧
    (convertToTropterIterate mucoRowEx).adjuncts
        = ⟨0, mucoRowEx.time.length, []⟩ :=
  ⟨by decide,
   (empty_group_shapes 0 tropNoStates mucoRowEx (by decide)).1 (by decide),
   (empty_group_shapes 0 tropNoStates mucoRowEx
      (by decide)).2.2.1 (by decide),
   (empty_group_shapes 0 tropNoStates mucoRowEx
      (by decide)).2.2.2.2.2.1 (by decide),
   (empty_group_shapes 0 tropNoStates mucoRowEx
      (by decide)).2.2.2.2.2.2.2.1 (by decide) (by decide)⟩

/-- Claim C6: `convertIterateTropterToMuco` performs a single internal
consistency check, asserting that the derivative count is non-negative;
for every tropter input whose `adjunct_names` list has at least `m_mpSum`
entries, `numDerivatives >= 0` holds (on the C++ `int` computation), so
the assertion-failure branch is unreachable. -/
theorem derivative_count_nonneg (mpSum : Nat) (trop : TropterIterate)
    (h : mpSum ≤ trop.adjunct_names.length) :
    0 ≤ numDerivativesInt mpSum trop := by
  simp only [numDerivativesInt]
  omega

/-- Witness for C6 on the concrete iterate `tropEx` with `m_mpSum = 1`. -/
theorem derivative_count_nonneg_w :
    1 ≤ tropEx.adjunct_names.length ∧ 0 ≤ numDerivativesInt 1 tropEx :=
  ⟨by decide, derivative_count_nonneg 1 tropEx (by decide)⟩

/-- Claim C7: every trajectory record produced by either conversion keeps
the data-model invariant that all per-channel columns share the same
time-sample count: every non-empty output matrix has exactly `numTimes`
rows (Muco layout) or `numTimes` columns (tropter layout), `numTimes`
being the length of the input time vector; all output matrix data is
well-formed. -/
theorem time_sample_count_invariant (mpSum : Nat) (trop : TropterIterate)
    (m : MucoIterate) (h : m.isEmpty = false) :
    mucoShapeOK trop.time.length
        (convertIterateTropterToMuco mpSum trop).states ∧
    mucoShapeOK trop.time.length
        (convertIterateTropterToMuco mpSum trop).controls ∧
    mucoShapeOK trop.time.length
        (convertIterateTropterToMuco mpSum trop).multipliers ∧
    mucoShapeOK trop.time.length
        (convertIterateTropterToMuco mpSum trop).derivatives ∧
    tropShapeOK m.time.length (convertToTropterIterate m).states ∧
    tropShapeOK m.time.length (convertToTropterIterate m).controls ∧
    tropShapeOK m.time.length (convertToTropterIterate m).adjuncts := by
  refine ⟨?_, ?_, ?_, ?_, ?_, ?_, ?_⟩
  · simp only [convertIterateTropterToMuco]
    split
    · exact mucoShapeOK_mkMat _ _ _
    · exact mucoShapeOK_empty _
  · simp only [convertIterateTropterToMuco]
    split
    · exact mucoShapeOK_mkMat _ _ _
    · exact mucoShapeOK_empty _
  · simp only [convertIterateTropterToMuco]
    split
    · exact mucoShapeOK_mkMat _ _ _
    · exact mucoShapeOK_empty _
  · simp only [convertIterateTropterToMuco]
    split
    · exact mucoShapeOK_mkMat _ _ _
    · exact mucoShapeOK_empty _
  · rw [convertToTropterIterate_of_nonempty m h]
    show tropShapeOK _ (if _ then _ else _ : Mat)
    split
    · exact tropShapeOK_mkMat _ _ _
    · exact tropShapeOK_zero_rows _
  · rw [convertToTropterIterate_of_nonempty m h]
    show tropShapeOK _ (if _ then _ else _ : Mat)
    split
    · exact tropShapeOK_mkMat _ _ _
    · exact tropShapeOK_zero_rows _
  · rw [convertToTropterIterate_of_nonempty m h]
    exact tropShapeOK_mkMat _ _ _

/-- Witness for C7 on the concrete pair `tropEx` (with `m_mpSum = 1`) and
`mucoEx`. -/
theorem time_sample_count_invariant_w :
    mucoEx.isEmpty = false ∧
    mucoShapeOK tropEx.time.length
        (convertIterateTropterToMuco 1 tropEx).states ∧
    tropShapeOK mucoEx.time.length (convertToTropterIterate mucoEx).adjuncts :=
  ⟨by decide,
   (time_sample_count_invariant 1 tropEx mucoEx (by decide)).1,
   (time_sample_count_invariant 1 tropEx mucoEx (by decide)).2.2.2.2.2.2⟩

/-- Claim C8: both conversion functions are deterministic pure data
transformations: runs on equal inputs and equal solver state (the
multiplier count `m_mpSum` is the only solver state read) return equal
outputs.  The C++ functions are `const` members taking their iterate by
`const` reference and writing only locals, which the functional embedding
reflects: neither input nor solver state is modified. -/
theorem conversions_deterministic :
    (∀ (mp1 mp2 : Nat) (t1 t2 : TropterIterate), mp1 = mp2 → t1 = t2 →
      convertIterateTropterToMuco mp1 t1 = convertIterateTropterToMuco mp2 t2) ∧
    (∀ m1 m2 : MucoIterate, m1 = m2 →
      convertToTropterIterate m1 = convertToTropterIterate m2) :=
  ⟨fun _ _ _ _ h1 h2 => by rw [h1, h2], fun _ _ h => by rw [h]⟩

/-- Witness for C8 on the concrete pair `tropEx` (with `m_mpSum = 1`) and
`mucoEx`. -/
theorem conversions_deterministic_w :
    convertIterateTropterToMuco 1 tropEx = convertIterateTropterToMuco 1 tropEx ∧
    convertToTropterIterate mucoEx = convertToTropterIterate mucoEx :=
  ⟨conversions_deterministic.1 1 1 tropEx tropEx rfl rfl,
   conversions_deterministic.2 mucoEx mucoEx rfl⟩

/-- Claim C9: if the input Muco iterate is empty, `convertToTropterIterate`
returns a default-constructed `tropter::Iterate` — no time samples, empty
name lists, empty matrices — without reading any field of the input (any
two empty inputs give the same output). -/
theorem empty_input_returns_default (m : MucoIterate)
    (h : m.isEmpty = true) :
    convertToTropterIterate m = TropterIterate.defaultIterate ∧
    TropterIterate.defaultIterate.time = [] ∧
    TropterIterate.defaultIterate.state_names = [] ∧
    TropterIterate.defaultIterate.control_names = [] ∧
    TropterIterate.defaultIterate.adjunct_names = [] ∧
    TropterIterate.defaultIterate.parameter_names = [] ∧
    TropterIterate.defaultIterate.states = Mat.empty ∧
    TropterIterate.defaultIterate.controls = Mat.empty ∧
    TropterIterate.defaultIterate.adjuncts = Mat.empty ∧
    TropterIterate.defaultIterate.parameters = [] ∧
    (∀ m2 : MucoIterate, m2.isEmpty = true →
      convertToTropterIterate m = convertToTropterIterate m2) := by
  refine ⟨by simp [convertToTropterIterate, h], rfl, rfl, rfl, rfl, rfl,
    rfl, rfl, rfl, rfl, ?_⟩
  intro m2 h2
  simp [convertToTropterIterate, h, h2]

/-- Witness for C9 on `mucoEmptyEx`, an empty iterate whose matrix fields
nevertheless hold data. -/
theorem empty_input_returns_default_w :
    mucoEmptyEx.isEmpty = true ∧
    convertToTropterIterate mucoEmptyEx = TropterIterate.defaultIterate :=
  ⟨by decide, (empty_input_returns_default mucoEmptyEx (by decide)).1⟩

/-- Claim C10: `createDoublePendulum` is definitionally
`createNLinkPendulum(2)`, and it is a declared member of `ModelFactory`;
but `createPendulum` is NOT declared by the class — on line 40 of
`ModelFactory.h` its entire declaration sits inside the `///` doc comment
(a missing line break), contradicting that comment's own statement that
the convenience function exists. -/
theorem convenience_factories :
    createDoublePendulum = createNLinkPendulum 2 ∧
    "createDoublePendulum" ∈ modelFactoryDeclaredMembers ∧
    "createPendulum" ∉ modelFactoryDeclaredMembers :=
  ⟨rfl, by decide, by decide⟩

/-! ### Helper lemmas for the round-trip property -/

theorem convMuco_time (mp : Nat) (t : TropterIterate) :
    (convertIterateTropterToMuco mp t).time = t.time := rfl

theorem convMuco_state_names (mp : Nat) (t : TropterIterate) :
    (convertIterateTropterToMuco mp t).state_names = t.state_names := rfl

theorem convMuco_control_names (mp : Nat) (t : TropterIterate) :
    (convertIterateTropterToMuco mp t).control_names = t.control_names := rfl

theorem convMuco_multiplier_names (mp : Nat) (t : TropterIterate) :
    (convertIterateTropterToMuco mp t).multiplier_names
      = t.adjunct_names.take mp := rfl

theorem convMuco_derivative_names (mp : Nat) (t : TropterIterate) :
    (convertIterateTropterToMuco mp t).derivative_names
      = t.adjunct_names.drop mp := rfl

theorem convMuco_parameter_names (mp : Nat) (t : TropterIterate) :
    (convertIterateTropterToMuco mp t).parameter_names
      = t.parameter_names := rfl

theorem convMuco_states_get (mp : Nat) (t : TropterIterate) (itime i : Nat)
    (ht : itime < t.time.length) (hi : i < t.state_names.length) :
    (convertIterateTropterToMuco mp t).states.get itime i
      = t.states.get i itime := by
  simp only [convertIterateTropterToMuco,
    if_pos (by omega : t.state_names.length ≠ 0)]
  rw [mkMat_get _ _ _ _ _ ht hi]

theorem convMuco_controls_get (mp : Nat) (t : TropterIterate) (itime i : Nat)
    (ht : itime < t.time.length) (hi : i < t.control_names.length) :
    (convertIterateTropterToMuco mp t).controls.get itime i
      = t.controls.get i itime := by
  simp only [convertIterateTropterToMuco,
    if_pos (by omega : t.control_names.length ≠ 0)]
  rw [mkMat_get _ _ _ _ _ ht hi]

theorem convMuco_multipliers_get (mp : Nat) (t : TropterIterate)
    (itime i : Nat) (ht : itime < t.time.length) (hi : i < mp) :
    (convertIterateTropterToMuco mp t).multipliers.get itime i
      = t.adjuncts.get i itime := by
  simp only [convertIterateTropterToMuco, if_pos (by omega : mp ≠ 0)]
  rw [mkMat_get _ _ _ _ _ ht hi]

theorem convMuco_derivatives_get (mp : Nat) (t : TropterIterate)
    (itime j : Nat) (ht : itime < t.time.length)
    (hj : j < t.adjunct_names.length - mp) :
    (convertIterateTropterToMuco mp t).derivatives.get itime j
      = t.adjuncts.get (j + mp) itime := by
  simp only [convertIterateTropterToMuco,
    if_pos (by omega : t.adjunct_names.length - mp ≠ 0)]
  rw [mkMat_get _ _ _ _ _ ht hj]

theorem convTrop_time (m : MucoIterate) (h : m.isEmpty = false) :
    (convertToTropterIterate m).time = m.time := by
  rw [convertToTropterIterate_of_nonempty m h]

theorem convTrop_state_names (m : MucoIterate) (h : m.isEmpty = false) :
    (convertToTropterIterate m).state_names = m.state_names := by
  rw [convertToTropterIterate_of_nonempty m h]

theorem convTrop_control_names (m : MucoIterate) (h : m.isEmpty = false) :
    (convertToTropterIterate m).control_names = m.control_names := by
  rw [convertToTropterIterate_of_nonempty m h]

theorem convTrop_adjunct_names (m : MucoIterate) (h : m.isEmpty = false) :
    (convertToTropterIterate m).adjunct_names
      = m.multiplier_names ++ m.derivative_names := by
  rw [convertToTropterIterate_of_nonempty m h]

theorem convTrop_parameter_names (m : MucoIterate) (h : m.isEmpty = false) :
    (convertToTropterIterate m).parameter_names = m.parameter_names := by
  rw [convertToTropterIterate_of_nonempty m h]

theorem convTrop_states_get (m : MucoIterate) (h : m.isEmpty = false)
    (itime i : Nat) (ht : itime < m.time.length)
    (hi : i < m.state_names.length) :
    (convertToTropterIterate m).states.get i itime
      = m.states.get itime i := by
  rw [convertToTropterIterate_of_nonempty m h]
  show ((if _ then _ else _ : Mat)).get i itime = _
  rw [if_pos (by omega : m.state_names.length ≠ 0),
    mkMat_get _ _ _ _ _ hi ht]

theorem convTrop_controls_get (m : MucoIterate) (h : m.isEmpty = false)
    (itime i : Nat) (ht : itime < m.time.length)
    (hi : i < m.control_names.length) :
    (convertToTropterIterate m).controls.get i itime
      = m.controls.get itime i := by
  rw [convertToTropterIterate_of_nonempty m h]
  show ((if _ then _ else _ : Mat)).get i itime = _
  rw [if_pos (by omega : m.control_names.length ≠ 0),
    mkMat_get _ _ _ _ _ hi ht]

theorem convTrop_adjuncts_get_mult (m : MucoIterate) (h : m.isEmpty = false)
    (itime i : Nat) (ht : itime < m.time.length)
    (hi : i < m.multiplier_names.length) :
    (convertToTropterIterate m).adjuncts.get i itime
      = m.multipliers.get itime i := by
  rw [convertToTropterIterate_of_nonempty m h]
  show (mkMat _ _ _).get i itime = _
  rw [mkMat_get _ _ _ _ _ (by omega) ht, if_pos hi]

theorem convTrop_adjuncts_get_deriv (m : MucoIterate) (h : m.isEmpty = false)
    (itime j : Nat) (ht : itime < m.time.length)
    (hj : j < m.derivative_names.length) :
    (convertToTropterIterate m).adjuncts.get
        (m.multiplier_names.length + j) itime
      = m.derivatives.get itime j := by
  rw [convertToTropterIterate_of_nonempty m h]
  show (mkMat _ _ _).get (m.multiplier_names.length + j) itime = _
  rw [mkMat_get _ _ _ _ _ (by omega) ht, if_neg (by omega),
    Nat.add_sub_cancel_left]

/-- Claim C3: for every non-empty Muco iterate whose multiplier-name count
equals the problem's `m_mpSum` and whose matrices have rows equal to the
time-sample count, converting with `convertToTropterIterate` and back with
`convertIterateTropterToMuco` returns an iterate with the same time
vector, the same state, control, multiplier, derivative, and parameter
name lists, and the same matrix values at every in-range time and channel
index (the concatenation of multiplier and derivative channels in one
direction is exactly undone by the split by count in the other). -/
theorem roundtrip_muco_tropter_muco (mpSum : Nat) (m : MucoIterate)
    (hne : m.isEmpty = false)
    (hmp : m.multiplier_names.length = mpSum)
    (_hrs : m.states.nrows = m.time.length)
    (_hrc : m.controls.nrows = m.time.length)
    (_hrm : m.multipliers.nrows = m.time.length)
    (_hrd : m.derivatives.nrows = m.time.length) :
    (convertIterateTropterToMuco mpSum (convertToTropterIterate m)).time
        = m.time ∧
    (convertIterateTropterToMuco mpSum (convertToTropterIterate m)).state_names
        = m.state_names ∧
    (convertIterateTropterToMuco mpSum (convertToTropterIterate m)).control_names
        = m.control_names ∧
    (convertIterateTropterToMuco mpSum (convertToTropterIterate m)).multiplier_names
        = m.multiplier_names ∧
    (convertIterateTropterToMuco mpSum (convertToTropterIterate m)).derivative_names
        = m.derivative_names ∧
    (convertIterateTropterToMuco mpSum (convertToTropterIterate m)).parameter_names
        = m.parameter_names ∧
    (∀ itime, itime < m.time.length →
      (∀ i, i < m.state_names.length →
        (convertIterateTropterToMuco mpSum
            (convertToTropterIterate m)).states.get itime i
          = m.states.get itime i) ∧
      (∀ i, i < m.control_names.length →
        (convertIterateTropterToMuco mpSum
            (convertToTropterIterate m)).controls.get itime i
          = m.controls.get itime i) ∧
      (∀ i, i < m.multiplier_names.length →
        (convertIterateTropterToMuco mpSum
            (convertToTropterIterate m)).multipliers.get itime i
          = m.multipliers.get itime i) ∧
      (∀ j, j < m.derivative_names.length →
        (convertIterateTropterToMuco mpSum
            (convertToTropterIterate m)).derivatives.get itime j
          = m.derivatives.get itime j)) := by
  subst hmp
  have htime : (convertToTropterIterate m).time = m.time := convTrop_time m hne
  have hsn : (convertToTropterIterate m).state_names = m.state_names :=
    convTrop_state_names m hne
  have hcn : (convertToTropterIterate m).control_names = m.control_names :=
    convTrop_control_names m hne
  have han : (convertToTropterIterate m).adjunct_names
      = m.multiplier_names ++ m.derivative_names := convTrop_adjunct_names m hne
  refine ⟨by rw [convMuco_time, htime],
    by rw [convMuco_state_names, hsn],
    by rw [convMuco_control_names, hcn],
    by rw [convMuco_multiplier_names, han, List.take_left],
    by rw [convMuco_derivative_names, han, List.drop_left],
    by rw [convMuco_parameter_names, convTrop_parameter_names m hne], ?_⟩
  intro itime ht
  have ht2 : itime < (convertToTropterIterate m).time.length := by
    rw [htime]; exact ht
  refine ⟨?_, ?_, ?_, ?_⟩
  · intro i hi
    rw [convMuco_states_get _ _ _ _ ht2 (by rw [hsn]; exact hi)]
    exact convTrop_states_get m hne itime i ht hi
  · intro i hi
    rw [convMuco_controls_get _ _ _ _ ht2 (by rw [hcn]; exact hi)]
    exact convTrop_controls_get m hne itime i ht hi
  · intro i hi
    rw [convMuco_multipliers_get _ _ _ _ ht2 hi]
    exact convTrop_adjuncts_get_mult m hne itime i ht hi
  · intro j hj
    rw [convMuco_derivatives_get _ _ _ _ ht2
      (by rw [han, List.length_append]; omega)]
    rw [Nat.add_comm j m.multiplier_names.length]
    exact convTrop_adjuncts_get_deriv m hne itime j ht hj

/-- Witness for C3 on the concrete iterate `mucoEx` with `m_mpSum = 1`. -/
theorem roundtrip_muco_tropter_muco_w :
    mucoEx.isEmpty = false ∧
    mucoEx.multiplier_names.length = 1 ∧
    mucoEx.states.nrows = mucoEx.time.length ∧
    mucoEx.controls.nrows = mucoEx.time.length ∧
    mucoEx.multipliers.nrows = mucoEx.time.length ∧
    mucoEx.derivatives.nrows = mucoEx.time.length ∧
    (convertIterateTropterToMuco 1 (convertToTropterIterate mucoEx)).time
        = mucoEx.time ∧
    (convertIterateTropterToMuco 1
        (convertToTropterIterate mucoEx)).multiplier_names
        = mucoEx.multiplier_names ∧
    (convertIterateTropterToMuco 1
        (convertToTropterIterate mucoEx)).states.get 1 0
        = mucoEx.states.get 1 0 ∧
    (convertIterateTropterToMuco 1
        (convertToTropterIterate mucoEx)).derivatives.get 0 0
        = mucoEx.derivatives.get 0 0 :=
  ⟨by decide, by decide, by decide, by decide, by decide, by decide,
   (roundtrip_muco_tropter_muco 1 mucoEx (by decide) (by decide) (by decide)
      (by decide) (by decide) (by decide)).1,
   (roundtrip_muco_tropter_muco 1 mucoEx (by decide) (by decide) (by decide)
      (by decide) (by decide) (by decide)).2.2.2.1,
   ((roundtrip_muco_tropter_muco 1 mucoEx (by decide) (by decide) (by decide)
      (by decide) (by decide) (by decide)).2.2.2.2.2.2 1
      (by decide)).1 0 (by decide),
   ((roundtrip_muco_tropter_muco 1 mucoEx (by decide) (by decide) (by decide)
      (by decide) (by decide) (by decide)).2.2.2.2.2.2 0
      (by decide)).2.2.2 0 (by decide)⟩

end Spec2Proof
